import Mathlib

/-!
Verification of the D2E content-generation pipeline.

Shallow embedding of the backend of the D2E-ContentCreator repository:
the OpenAI adapter (`openai.ts`: `countWords`, `categorizeError`,
`callOpenAI`, `parseJsonResponse`), the job pipeline
(`content-generator.ts`: `breakdownTopic`, `generateLessonContent`,
`generatePodcastSummary`, `generateSingleLesson`, `generateAllContent`,
`retryFailedLessons`, `getGenerationStatus`) and the SSE broadcaster
(`sse-manager.ts`: `sendToConnection`, `sendToTopic`, `addConnection`)
together with the `/:id/stream` route.

Database rows are embedded as Lean structures, the database tables as
lists of rows; the nondeterministic completion service (OpenAI) is an
explicit environment parameter; asynchronous code is sequentialised
(lessons are processed strictly sequentially in the source as well).
JavaScript strings are Lean `String`s, iterated as `List Char`.
-/

/-! ## Data model (backend/src/types.ts, db rows) -/

/-- Status of a `lessons` row (also used for `topics.status`). -/
inductive LessonStatus
  | pending
  | generating
  | completed
  | failed
deriving DecidableEq, Repr

/-- A row of the `lessons` table (fields relevant to the pipeline).
`retry_count` is `NULL`-coalesced to 0 everywhere in the source
(`lesson.retry_count || 0`, `retry_count IS NULL`), so it is a `Nat`. -/
structure Lesson where
  id : Nat
  lesson_number : Nat
  title : String
  description : Option String
  status : LessonStatus
  retry_count : Nat
  file_path : Option String
  word_count : Option Nat
  podcast_file_path : Option String
  podcast_word_count : Option Nat
  last_error : Option String
deriving DecidableEq, Repr

/-- A row of the `topics` table (fields relevant to the pipeline). -/
structure Topic where
  id : Nat
  title : String
  slug : String
  description : Option String
  lesson_count : Nat
  status : LessonStatus
  last_error : Option String
deriving DecidableEq, Repr

/-! ## Word counter (openai.ts `countWords`)

```
return text
  .replace(/[#*_`~\[\]()]/g, '') // Remove markdown syntax
  .split(/\s+/)
  .filter(word => word.length > 0)
  .length;
```
-/

/-- The characters removed by `countWords` before splitting:
the regex class <code>[#*_&#96;~\[\]()]</code>.  The backquote (code 96) and the
tilde are written by code point. -/
def isMdStripChar (c : Char) : Bool :=
  c = '#' || c = '*' || c = '_' || c.toNat = 96 || c.toNat = 126 ||
  c = '[' || c = ']' || c = '(' || c = ')'

/-- The whitespace class `\s` of the JavaScript regex engine, restricted to
ASCII: space, tab, newline, carriage return, vertical tab, form feed. -/
def isJsSpace (c : Char) : Bool :=
  c = ' ' || c = '\t' || c = '\n' || c = '\r' || c.toNat = 11 || c.toNat = 12

/-- Number of maximal runs of non-whitespace characters.  The flag records
whether the previous character was part of a word.  This equals the length
of `split(/\s+/).filter(w => w.length > 0)` in the source: each maximal
non-whitespace run is exactly one nonempty piece of the split. -/
def countWordRuns : List Char → Bool → Nat
  | [], _ => 0
  | c :: cs, inWord =>
    if isJsSpace c then countWordRuns cs false
    else if inWord then countWordRuns cs true
    else Nat.succ (countWordRuns cs true)

/-- openai.ts `countWords`: strip the markdown character class, then count
whitespace-separated nonempty words. -/
def countWords (text : String) : Nat :=
  countWordRuns (text.data.filter (fun c => !isMdStripChar c)) false

/-- The markdown list-marker characters, following the specification's
wording "markdown emphasis, heading, list, or link-bracket characters"
(refinement definition from the spec, for comparison with the code's
strip set: unordered-list items in markdown begin with `-`, `+` or `*`). -/
def markdownListMarkerChars : List Char := ['-', '+', '*']

theorem countWords_hello : countWords "**Hello** world!" = 2 := by decide

theorem countWords_hyphen : countWords "- item" = 2 := by decide

/-- Inserting a character of the stripped class anywhere in a text leaves
the filtered character list, and therefore the word count, unchanged. -/
theorem countWords_insert_strip (u v : String) (c : Char)
    (hc : isMdStripChar c = true) :
    countWords (u ++ String.mk [c] ++ v) = countWords (u ++ v) := by
  unfold countWords
  rw [String.data_append, String.data_append, String.data_append,
    List.filter_append, List.filter_append, List.filter_append]
  have : (String.mk [c]).data.filter (fun c => !isMdStripChar c) = [] := by
    simp [hc]
  rw [this, List.append_nil]

/-- C8 (counterexample): the claim says inserting markdown *list*
characters never increases the word count, but the hyphen — a markdown
list marker — is not in the stripped class `[#*_~\[\]()]` plus backquote,
so inserting `"-"` in front of `" item"` raises the count from 1 to 2. -/
theorem c8_counterexample :
    '-' ∈ markdownListMarkerChars ∧
    ("- item" : String) = String.mk ['-'] ++ " item" ∧
    countWords " item" = 1 ∧
    countWords "- item" = 2 ∧
    ¬ countWords "- item" ≤ countWords " item" := by decide

/-- C8 (amended): `countWords "**Hello** world!" = 2`,
`countWords "" = 0`, and inserting any character of the class the code
actually strips (# * _ backquote ~ [ ] ( )) anywhere in a text never
increases — in fact never changes — the word count.  (Hyphen/plus
ordered- and unordered-list markers are not stripped and can increase
the count, see the counterexample.) -/
theorem c8_countWords_spec :
    countWords "**Hello** world!" = 2 ∧
    countWords "" = 0 ∧
    ∀ (u v : String) (c : Char), isMdStripChar c = true →
      countWords (u ++ String.mk [c] ++ v) = countWords (u ++ v) := by
  refine ⟨by decide, by decide, ?_⟩
  intro u v c hc
  exact countWords_insert_strip u v c hc

/-- C8 witness: the amended theorem applied at the concrete insertion of
an asterisk into `"a b"`. -/
theorem c8_countWords_spec_witness :
    isMdStripChar '*' = true ∧
    countWords ("a " ++ String.mk ['*'] ++ "b") = countWords ("a " ++ "b") :=
  ⟨by decide, c8_countWords_spec.2.2 "a " "b" '*' (by decide)⟩

/-! ## Error taxonomy and categorisation (openai.ts) -/

/-- Substring test on character lists, modelling the
`error.message.includes(...)` checks of `categorizeError`. -/
def listHasSub (needle : List Char) : List Char → Bool
  | [] => needle.isEmpty
  | c :: cs => needle.isPrefixOf (c :: cs) || listHasSub needle cs

/-- JS `hay.includes(needle)`. -/
def strIncludes (hay needle : String) : Bool := listHasSub needle.data hay.data

/-- The values that can be thrown inside `callOpenAI`, mirroring the
`instanceof` chain of `categorizeError`: the four custom error classes,
the SDK's `OpenAI.APIError` (with its `retry-after` header, already
parsed to a number when present), and a plain `Error` with its `name`
(used to recognise `AbortError`). -/
inductive JsError
  | configError (message : String)
  | rateLimitError (message : String) (retryAfter : Nat)
  | timeoutError (message : String)
  | apiError (message : String) (statusCode : Nat) (retryableFlag : Bool)
  | sdkApiError (message : String) (status : Nat) (retryAfterHeader : Option Nat)
  | jsError (message : String) (name : String)
deriving DecidableEq, Repr

/-- The record returned by `categorizeError`. -/
structure ErrorInfo where
  message : String
  isRetryable : Bool
  errorCode : String
  retryAfter : Option Nat
deriving DecidableEq, Repr

/-- openai.ts `categorizeError`, case by case along the `instanceof`
chain.  A generic `Error` is network-retryable exactly when its message
contains one of the four transient-network substrings. -/
def categorizeError : JsError → ErrorInfo
  | .configError m => ⟨m, false, "CONFIG_ERROR", none⟩
  | .rateLimitError m ra => ⟨m, true, "RATE_LIMITED", some ra⟩
  | .timeoutError m => ⟨m, true, "TIMEOUT", none⟩
  | .apiError m st r => ⟨m, r, "API_ERROR_" ++ toString st, none⟩
  | .sdkApiError m st _ =>
    let retry := st = 429 || st = 500 || st = 502 || st = 503
    ⟨m, retry, "OPENAI_" ++ toString st, if st = 429 then some 60 else none⟩
  | .jsError m _ =>
    let isNetworkError := strIncludes m "ECONNREFUSED" || strIncludes m "ETIMEDOUT" ||
      strIncludes m "ENOTFOUND" || strIncludes m "fetch failed"
    ⟨m, isNetworkError, if isNetworkError then "NETWORK_ERROR" else "UNKNOWN_ERROR", none⟩

/-! ## callOpenAI retry loop (openai.ts) -/

/-- The two rewrites the `catch` block of `callOpenAI` applies to the
caught error before categorising it: an `AbortError` becomes an
`OpenAITimeoutError`, and an SDK error with status 429 becomes an
`OpenAIRateLimitError` carrying the server's `retry-after` (default 60). -/
def normalizeCallError (timeoutMs : Nat) : JsError → JsError
  | .jsError m nm =>
    if nm = "AbortError" then
      .timeoutError ("Request timed out after " ++ toString timeoutMs ++ "ms")
    else .jsError m nm
  | .sdkApiError m st hdr =>
    if st = 429 then .rateLimitError m (hdr.getD 60) else .sdkApiError m st hdr
  | e => e

/-- The completion-service environment: what attempt number `k` of the
outbound call produces (the returned text, or the thrown error). -/
structure CallEnv where
  attempts : Nat → Except JsError String

/-- The `for (attempt = 0; attempt <= maxRetries; attempt++)` loop of
`callOpenAI`, with `fuel = maxRetries - attempt` so that `fuel = 0` is
the source's `attempt >= maxRetries` test.  On success it returns the
content and the number of calls made; on failure it throws the
normalised last error together with the number of calls made. -/
def callAttemptLoop (env : CallEnv) (timeoutMs : Nat) :
    Nat → Nat → Except (JsError × Nat) (String × Nat)
  | 0, attempt =>
    match env.attempts attempt with
    | .ok content => .ok (content, attempt + 1)
    | .error e => .error (normalizeCallError timeoutMs e, attempt + 1)
  | Nat.succ fuel, attempt =>
    match env.attempts attempt with
    | .ok content => .ok (content, attempt + 1)
    | .error e =>
      let lastError := normalizeCallError timeoutMs e
      if (categorizeError lastError).isRetryable = false then
        .error (lastError, attempt + 1)
      else
        callAttemptLoop env timeoutMs fuel (attempt + 1)

/-- openai.ts `callOpenAI`: a missing prompt template throws an
`OpenAIConfigError` before any attempt; otherwise the retry loop runs
with the configured ceiling. -/
def callOpenAI (template : Option String) (promptName : String)
    (env : CallEnv) (maxRetries : Nat) (timeoutMs : Nat) :
    Except (JsError × Nat) (String × Nat) :=
  match template with
  | none =>
    .error (.configError ("Prompt template \"" ++ promptName ++ "\" not found"), 0)
  | some _ => callAttemptLoop env timeoutMs maxRetries 0

/-- The option defaults of `callOpenAI`: `maxRetries = 3`,
`timeout = 120000`. -/
def callOpenAIWithDefaults (template : Option String) (promptName : String)
    (env : CallEnv) : Except (JsError × Nat) (String × Nat) :=
  callOpenAI template promptName env 3 120000

/-- A retryable-error attempt consumes one unit of fuel and moves to the
next attempt; iterated `j` times. -/
theorem callAttemptLoop_skip (env : CallEnv) (timeoutMs : Nat) :
    ∀ (j fuel attempt : Nat), j ≤ fuel →
      (∀ k, k < j → ∃ e, env.attempts (attempt + k) = .error e ∧
        (categorizeError (normalizeCallError timeoutMs e)).isRetryable = true) →
      callAttemptLoop env timeoutMs fuel attempt =
        callAttemptLoop env timeoutMs (fuel - j) (attempt + j) := by
  intro j
  induction j with
  | zero => intro fuel attempt _ _; simp
  | succ j ih =>
    intro fuel attempt hle hret
    obtain ⟨f, rfl⟩ : ∃ f, fuel = f + 1 := ⟨fuel - 1, by omega⟩
    obtain ⟨e, he, hr⟩ := hret 0 (Nat.succ_pos j)
    rw [Nat.add_zero] at he
    have step : callAttemptLoop env timeoutMs (f + 1) attempt =
        callAttemptLoop env timeoutMs f (attempt + 1) := by
      simp only [callAttemptLoop, he, hr]
      simp
    rw [step, ih f (attempt + 1) (by omega) ?_]
    · congr 1
      · omega
      · omega
    · intro k hk
      have := hret (k + 1) (by omega)
      rwa [show attempt + (k + 1) = attempt + 1 + k by omega] at this

/-- C4: `callOpenAI` throws an error categorised as non-retryable
(config error, unparseable-response `apiError` with flag false, unknown
error) immediately after the failing attempt, with no further calls to
the completion service; errors categorised as retryable (rate limit,
timeout, retryable API status, transient network condition) are retried
up to the ceiling, so at most `maxRetries + 1` total attempts are made
(default ceiling 3, hence at most 4 attempts) before the last error is
thrown. -/
theorem c4_callOpenAI_retry_policy :
    (∀ m, (categorizeError (.configError m)).isRetryable = false) ∧
    (∀ m ra, (categorizeError (.rateLimitError m ra)).isRetryable = true) ∧
    (∀ m, (categorizeError (.timeoutError m)).isRetryable = true) ∧
    (∀ m st r, (categorizeError (.apiError m st r)).isRetryable = r) ∧
    (∀ (tmpl pn : String) (env : CallEnv) (maxRetries timeoutMs n : Nat) (e : JsError),
      n ≤ maxRetries →
      (∀ k, k < n → ∃ e2, env.attempts k = .error e2 ∧
        (categorizeError (normalizeCallError timeoutMs e2)).isRetryable = true) →
      env.attempts n = .error e →
      (categorizeError (normalizeCallError timeoutMs e)).isRetryable = false →
      callOpenAI (some tmpl) pn env maxRetries timeoutMs =
        .error (normalizeCallError timeoutMs e, n + 1)) ∧
    (∀ (tmpl pn : String) (env : CallEnv) (maxRetries timeoutMs : Nat) (e : JsError),
      (∀ k, k ≤ maxRetries → ∃ e2, env.attempts k = .error e2 ∧
        (categorizeError (normalizeCallError timeoutMs e2)).isRetryable = true) →
      env.attempts maxRetries = .error e →
      callOpenAI (some tmpl) pn env maxRetries timeoutMs =
        .error (normalizeCallError timeoutMs e, maxRetries + 1)) ∧
    (∀ (tmpl pn : String) (env : CallEnv) (e : JsError),
      (∀ k, k ≤ 3 → ∃ e2, env.attempts k = .error e2 ∧
        (categorizeError (normalizeCallError 120000 e2)).isRetryable = true) →
      env.attempts 3 = .error e →
      callOpenAIWithDefaults (some tmpl) pn env =
        .error (normalizeCallError 120000 e, 4)) := by
  have hnonretry : ∀ (tmpl pn : String) (env : CallEnv) (maxRetries timeoutMs n : Nat)
      (e : JsError),
      n ≤ maxRetries →
      (∀ k, k < n → ∃ e2, env.attempts k = .error e2 ∧
        (categorizeError (normalizeCallError timeoutMs e2)).isRetryable = true) →
      env.attempts n = .error e →
      (categorizeError (normalizeCallError timeoutMs e)).isRetryable = false →
      callOpenAI (some tmpl) pn env maxRetries timeoutMs =
        .error (normalizeCallError timeoutMs e, n + 1) := by
    intro tmpl pn env maxRetries timeoutMs n e hle hpre he hnr
    show callAttemptLoop env timeoutMs maxRetries 0 = _
    rw [callAttemptLoop_skip env timeoutMs n maxRetries 0 hle
      (by intro k hk; simpa using hpre k hk)]
    rw [Nat.zero_add]
    cases h : maxRetries - n with
    | zero => simp only [callAttemptLoop, he]
    | succ f => simp only [callAttemptLoop, he, hnr, if_pos]
  have hexhaust : ∀ (tmpl pn : String) (env : CallEnv) (maxRetries timeoutMs : Nat)
      (e : JsError),
      (∀ k, k ≤ maxRetries → ∃ e2, env.attempts k = .error e2 ∧
        (categorizeError (normalizeCallError timeoutMs e2)).isRetryable = true) →
      env.attempts maxRetries = .error e →
      callOpenAI (some tmpl) pn env maxRetries timeoutMs =
        .error (normalizeCallError timeoutMs e, maxRetries + 1) := by
    intro tmpl pn env maxRetries timeoutMs e hall he
    show callAttemptLoop env timeoutMs maxRetries 0 = _
    rw [callAttemptLoop_skip env timeoutMs maxRetries maxRetries 0 le_rfl
      (by intro k hk; simpa using hall k (le_of_lt hk))]
    rw [Nat.zero_add, Nat.sub_self]
    simp only [callAttemptLoop, he]
  refine ⟨fun m => rfl, fun m ra => rfl, fun m => rfl, fun m st r => rfl,
    hnonretry, hexhaust, ?_⟩
  intro tmpl pn env e hall he
  exact hexhaust tmpl pn env 3 120000 e hall he

/-- C4 witness: with every attempt failing with a (retryable) timeout,
the default call makes exactly 4 attempts and throws the timeout; with
the first attempt failing with a (non-retryable) missing-credential
configuration error, the call throws after exactly 1 attempt. -/
theorem c4_callOpenAI_retry_policy_witness :
    callOpenAIWithDefaults (some "You are a teacher.") "topic_breakdown"
      ⟨fun _ => .error (.timeoutError "request aborted")⟩ =
      .error (.timeoutError "request aborted", 4) ∧
    callOpenAIWithDefaults (some "You are a teacher.") "topic_breakdown"
      ⟨fun _ => .error (.configError "OPENAI_API_KEY environment variable is not set")⟩ =
      .error (.configError "OPENAI_API_KEY environment variable is not set", 1) := by
  constructor
  · exact c4_callOpenAI_retry_policy.2.2.2.2.2.2 "You are a teacher." "topic_breakdown"
      ⟨fun _ => .error (.timeoutError "request aborted")⟩
      (.timeoutError "request aborted")
      (fun k _ => ⟨.timeoutError "request aborted", rfl, by decide⟩) rfl
  · exact c4_callOpenAI_retry_policy.2.2.2.2.1 "You are a teacher." "topic_breakdown"
      ⟨fun _ => .error (.configError "OPENAI_API_KEY environment variable is not set")⟩
      3 120000 0
      (.configError "OPENAI_API_KEY environment variable is not set")
      (by omega) (by omega) rfl (by decide)

/-! ## parseJsonResponse fence handling (openai.ts) -/

/-- The backquote character (code 96). -/
def backquote : Char := Char.ofNat 96

/-- JS `String.trim()` over the character list: whitespace removed from
both ends. -/
def trimChars (cs : List Char) : List Char :=
  ((cs.dropWhile isJsSpace).reverse.dropWhile isJsSpace).reverse

/-- Split a character list at the first occurrence of a triple backquote:
the characters before it and the characters after it. -/
def splitAtFence : List Char → Option (List Char × List Char)
  | [] => none
  | c :: cs =>
    if c = backquote ∧ cs.take 2 = [backquote, backquote] then
      some ([], cs.drop 2)
    else
      match splitAtFence cs with
      | some (b, a) => some (c :: b, a)
      | none => none

/-- The string handed to `JSON.parse` by `parseJsonResponse`:

```
const jsonMatch = response.match(/```(?:json)?\s*([\s\S]*?)```/);
const jsonStr = jsonMatch ? jsonMatch[1].trim() : response.trim();
```

The capture of a successful match is the lazily minimal text between a
fenced pair: everything after the first triple backquote — skipping an
optional literal `json` and then greedy whitespace — up to the next
triple backquote.  Without such a pair, the trimmed whole response. -/
def extractJsonPayload (response : String) : String :=
  match splitAtFence response.data with
  | none => String.mk (trimChars response.data)
  | some (_, rest) =>
    let rest2 := if rest.take 4 = "json".data then rest.drop 4 else rest
    let rest3 := rest2.dropWhile isJsSpace
    match splitAtFence rest3 with
    | none => String.mk (trimChars response.data)
    | some (capture, _) => String.mk (trimChars capture)

theorem splitAtFence_of_no_backquote :
    ∀ (cs : List Char), (∀ c ∈ cs, c ≠ backquote) → splitAtFence cs = none := by
  intro cs
  induction cs with
  | nil => intro _; rfl
  | cons c cs ih =>
    intro h
    have hc : c ≠ backquote := h c (List.mem_cons_self c cs)
    unfold splitAtFence
    rw [if_neg (by intro ⟨h1, _⟩; exact hc h1)]
    rw [ih (fun x hx => h x (List.mem_cons_of_mem c hx))]

theorem splitAtFence_cons_fence (cs : List Char) :
    splitAtFence (backquote :: backquote :: backquote :: cs) = some ([], cs) := by
  unfold splitAtFence
  rw [if_pos ⟨rfl, rfl⟩]
  rfl

theorem splitAtFence_append_fence :
    ∀ (cs rest : List Char), (∀ c ∈ cs, c ≠ backquote) →
      splitAtFence (cs ++ backquote :: backquote :: backquote :: rest) =
        some (cs, rest) := by
  intro cs
  induction cs with
  | nil => intro rest _; exact splitAtFence_cons_fence rest
  | cons c cs ih =>
    intro rest h
    have hc : c ≠ backquote := h c (List.mem_cons_self c cs)
    show splitAtFence (c :: (cs ++ _)) = _
    unfold splitAtFence
    rw [if_neg (by intro ⟨h1, _⟩; exact hc h1)]
    rw [ih rest (fun x hx => h x (List.mem_cons_of_mem c hx))]

theorem dropWhile_append_of_fixed (p : Char → Bool) :
    ∀ (xs ys : List Char), List.dropWhile p ys = ys →
      List.dropWhile p (xs ++ ys) = List.dropWhile p xs ++ ys := by
  intro xs ys hys
  induction xs with
  | nil => simpa using hys
  | cons x xs ih =>
    by_cases hx : p x
    · simp [List.dropWhile_cons, hx, ih]
    · simp [List.dropWhile_cons, hx]

theorem dropWhile_self_idem (p : Char → Bool) :
    ∀ (cs : List Char), List.dropWhile p (List.dropWhile p cs) = List.dropWhile p cs := by
  intro cs
  induction cs with
  | nil => rfl
  | cons c cs ih =>
    by_cases hc : p c
    · simp [List.dropWhile_cons, hc, ih]
    · simp [List.dropWhile_cons, hc]

theorem trimChars_dropWhile (cs : List Char) :
    trimChars (cs.dropWhile isJsSpace) = trimChars cs := by
  unfold trimChars
  rw [dropWhile_self_idem]

/-- A response wrapped in a markdown code fence hands the same trimmed
payload to `JSON.parse` as the unwrapped response. -/
theorem extractJsonPayload_fenced (s : String)
    (h : ∀ c ∈ s.data, c ≠ backquote) :
    extractJsonPayload ("```json\n" ++ s ++ "```") = extractJsonPayload s := by
  have hd : ("```json\n" ++ s ++ "```").data =
      backquote :: backquote :: backquote ::
        ('j' :: 's' :: 'o' :: 'n' :: '\n' ::
          (s.data ++ [backquote, backquote, backquote])) := by
    rw [String.data_append, String.data_append]
    have h1 : ("```json\n" : String).data =
        [backquote, backquote, backquote, 'j', 's', 'o', 'n', '\n'] := by decide
    have h2 : ("```" : String).data = [backquote, backquote, backquote] := by decide
    rw [h1, h2]; simp
  have hsub : ∀ c ∈ s.data.dropWhile isJsSpace, c ≠ backquote :=
    fun c hc => h c ((List.dropWhile_sublist isJsSpace).subset hc)
  have hfix : List.dropWhile isJsSpace [backquote, backquote, backquote] =
      [backquote, backquote, backquote] := by decide
  unfold extractJsonPayload
  rw [hd, splitAtFence_cons_fence]
  simp only [List.take, List.drop, List.dropWhile_cons]
  rw [if_pos (by decide)]
  have hdw : List.dropWhile isJsSpace
      ('\n' :: (s.data ++ [backquote, backquote, backquote])) =
      s.data.dropWhile isJsSpace ++ [backquote, backquote, backquote] := by
    rw [List.dropWhile_cons, if_pos (by decide)]
    exact dropWhile_append_of_fixed isJsSpace s.data _ hfix
  have hfence : splitAtFence
      (s.data.dropWhile isJsSpace ++ [backquote, backquote, backquote]) =
      some (s.data.dropWhile isJsSpace, []) :=
    splitAtFence_append_fence _ [] hsub
  rw [hdw, hfence, splitAtFence_of_no_backquote s.data h]
  show String.mk (trimChars (s.data.dropWhile isJsSpace)) = _
  rw [trimChars_dropWhile]

/-! ## Topic breakdown (content-generator.ts `breakdownTopic`) -/

/-- One entry of the `lessons` array of the parsed breakdown response. -/
structure BreakdownEntry where
  number : Nat
  title : String
  description : String
deriving DecidableEq, Repr

/-- The `lessons` field of the object `JSON.parse` produced: absent (or
any other falsy value), present but not an array, or an array. -/
inductive LessonsField
  | absent
  | nonArray
  | array (entries : List BreakdownEntry)
deriving DecidableEq, Repr

/-- The object returned by `parseJsonResponse<TopicBreakdown>`. -/
structure ParsedBreakdown where
  topic_description : String
  lessons : LessonsField
deriving DecidableEq, Repr

/-- Environment of one `breakdownTopic` run: whether
`isApiKeyConfigured()` holds, and what the combination of `callOpenAI`
and `parseJsonResponse` produces (a parsed object or a thrown error). -/
structure BreakdownEnv where
  apiKeyConfigured : Bool
  response : Except JsError ParsedBreakdown

/-- The row `INSERT INTO lessons (topic_id, lesson_number, title,
description, status, retry_count) VALUES (?, ?, ?, ?, 'pending', 0)`
creates for a breakdown entry (the generated row id is abstracted by the
lesson number). -/
def mkPendingLesson (b : BreakdownEntry) : Lesson :=
  { id := b.number, lesson_number := b.number, title := b.title,
    description := some b.description, status := .pending, retry_count := 0,
    file_path := none, word_count := none, podcast_file_path := none,
    podcast_word_count := none, last_error := none }

/-- Result of a `breakdownTopic` run: the final `topics` row, the
`lessons` rows inserted, and the message of the thrown error if the call
threw. -/
structure BreakdownOutcome where
  topic : Topic
  insertedLessons : List Lesson
  threw : Option String
deriving DecidableEq, Repr

/-- content-generator.ts `breakdownTopic`.  The missing-key check throws
before any status change; the `try` block sets the topic `generating`,
calls the adapter, rejects a response whose `lessons` field is missing
or not an array (`!breakdown.lessons || !Array.isArray(...)`), and on
the success path persists the description/lesson count and inserts one
`pending` row per entry.  The 3–12 length check only logs a warning.
The `catch` block records the categorised message as `last_error` with
status `failed` and rethrows. -/
def breakdownTopic (env : BreakdownEnv) (topic : Topic) : BreakdownOutcome :=
  if env.apiKeyConfigured = false then
    { topic := topic, insertedLessons := [],
      threw := some "OpenAI API key is not configured. Please add it to your .env file." }
  else
    let t1 : Topic := { topic with status := .generating, last_error := none }
    match env.response with
    | .error e =>
      let info := categorizeError e
      { topic := { t1 with status := .failed, last_error := some info.message },
        insertedLessons := [], threw := some info.message }
    | .ok parsed =>
      match parsed.lessons with
      | .array entries =>
        { topic := { t1 with
            description := some parsed.topic_description
            lesson_count := entries.length },
          insertedLessons := entries.map mkPendingLesson, threw := none }
      | _ =>
        let info := categorizeError (.jsError "Invalid response: missing lessons array" "Error")
        { topic := { t1 with status := .failed, last_error := some info.message },
          insertedLessons := [], threw := some "Invalid response: missing lessons array" }

/-- C5: a breakdown response that parses to an object with no `lessons`
array (missing field or a non-array value) makes `breakdownTopic` throw
with zero lesson rows inserted, the error recorded as the topic's
`last_error` and the topic status `failed`; and a response wrapped in a
markdown code fence hands the identical payload to `JSON.parse` as the
unwrapped response. -/
theorem c5_breakdown_rejection :
    (∀ (env : BreakdownEnv) (topic : Topic) (parsed : ParsedBreakdown),
      env.apiKeyConfigured = true →
      env.response = .ok parsed →
      (parsed.lessons = .absent ∨ parsed.lessons = .nonArray) →
      breakdownTopic env topic =
        { topic := { topic with
            status := .failed
            last_error := some "Invalid response: missing lessons array" },
          insertedLessons := [],
          threw := some "Invalid response: missing lessons array" }) ∧
    (∀ s : String, (∀ c ∈ s.data, c ≠ backquote) →
      extractJsonPayload ("```json\n" ++ s ++ "```") = extractJsonPayload s) := by
  constructor
  · intro env topic parsed hk hr hlf
    rcases hlf with h | h <;> simp [breakdownTopic, hk, hr, h] <;> rfl
  · intro s h
    exact extractJsonPayload_fenced s h

/-- C5 witness: a parsed object with a description but no `lessons`
field fails the topic and inserts no rows; the fence equivalence at a
concrete backquote-free payload. -/
theorem c5_breakdown_rejection_witness :
    breakdownTopic
      ⟨true, .ok ⟨"An overview of gardening", .absent⟩⟩
      ⟨7, "Gardening", "gardening", none, 0, .pending, none⟩ =
      { topic := ⟨7, "Gardening", "gardening", none, 0, .failed,
          some "Invalid response: missing lessons array"⟩,
        insertedLessons := [],
        threw := some "Invalid response: missing lessons array" } ∧
    extractJsonPayload ("```json\n" ++ "not a json object" ++ "```") =
      extractJsonPayload "not a json object" := by
  constructor
  · exact c5_breakdown_rejection.1
      ⟨true, .ok ⟨"An overview of gardening", .absent⟩⟩
      ⟨7, "Gardening", "gardening", none, 0, .pending, none⟩
      ⟨"An overview of gardening", .absent⟩ rfl rfl (Or.inl rfl)
  · exact c5_breakdown_rejection.2 "not a json object" (by decide)

/-! ## Word-count gate / expansion loop (content-generator.ts
`generateLessonContent`, `generatePodcastSummary`)

The two functions are textually identical up to the target band
(2700–3300 for lesson bodies, 1000–1200 for podcast scripts), the
prompt/token parameters of the first call, and log strings; both use
the default `maxRetries = 2`.  They are embedded as one parametrised
gate applied at the two bands. -/

/-- The completion-service environment of one gate run: the first-pass
text returned by `callOpenAI`, and the text `expandContent` returns for
expansion attempt `k` on the current content. -/
structure GenEnv where
  first : String
  expansions : Nat → String → String

/-- The `for (attempt = 1; attempt <= maxRetries; attempt++)` expansion
loop: call `expandContent`, re-measure, return as soon as the minimum is
reached; when the budget is exhausted, return the (under-length) current
text.  Result: final text, final measured word count, number of
expansion calls made. -/
def expandLoop (minWords : Nat) (env : GenEnv) :
    Nat → Nat → String → String × Nat × Nat
  | 0, _, content => (content, countWords content, 0)
  | Nat.succ rem, attempt, content =>
    let c2 := env.expansions attempt content
    let wc2 := countWords c2
    if minWords ≤ wc2 then (c2, wc2, 1)
    else
      let r := expandLoop minWords env rem (attempt + 1) c2
      (r.1, r.2.1, r.2.2 + 1)

/-- The shared body of `generateLessonContent` / `generatePodcastSummary`:
if the first pass lands in `[minWords, maxWords]` it is returned with no
expansion call; below the minimum, the expansion loop runs (at most
`maxRetries` calls); above the maximum the text is accepted as-is. -/
def wordCountGate (minWords maxWords maxRetries : Nat) (env : GenEnv) :
    String × Nat × Nat :=
  let content := env.first
  let wc := countWords content
  if minWords ≤ wc ∧ wc ≤ maxWords then (content, wc, 0)
  else if wc < minWords then expandLoop minWords env maxRetries 1 content
  else (content, wc, 0)

/-- Instance `generateLessonContent`: band 2700–3300, `maxRetries = 2`. -/
def generateLessonContent (env : GenEnv) : String × Nat × Nat :=
  wordCountGate 2700 3300 2 env

/-- Instance `generatePodcastSummary`: band 1000–1200, `maxRetries = 2`. -/
def generatePodcastSummary (env : GenEnv) : String × Nat × Nat :=
  wordCountGate 1000 1200 2 env

/-- Behaviour of the gate at budget 2, split by the measured counts of
the first pass and the two possible expansion calls. -/
theorem wordCountGate_cases (minWords maxWords : Nat) (env : GenEnv) :
    (minWords ≤ countWords env.first → countWords env.first ≤ maxWords →
      wordCountGate minWords maxWords 2 env = (env.first, countWords env.first, 0)) ∧
    (countWords env.first < minWords →
      (wordCountGate minWords maxWords 2 env).2.2 ≤ 2) ∧
    (countWords env.first < minWords →
      minWords ≤ countWords (env.expansions 1 env.first) →
      wordCountGate minWords maxWords 2 env =
        (env.expansions 1 env.first, countWords (env.expansions 1 env.first), 1)) ∧
    (countWords env.first < minWords →
      countWords (env.expansions 1 env.first) < minWords →
      countWords (env.expansions 2 (env.expansions 1 env.first)) < minWords →
      wordCountGate minWords maxWords 2 env =
        (env.expansions 2 (env.expansions 1 env.first),
         countWords (env.expansions 2 (env.expansions 1 env.first)), 2) ∧
      (wordCountGate minWords maxWords 2 env).2.1 < minWords) := by
  refine ⟨?_, ?_, ?_, ?_⟩
  · intro h1 h2
    unfold wordCountGate
    rw [if_pos ⟨h1, h2⟩]
  · intro h1
    unfold wordCountGate
    rw [if_neg (by intro ⟨ha, _⟩; omega), if_pos h1]
    unfold expandLoop
    by_cases h2 : minWords ≤ countWords (env.expansions 1 env.first)
    · rw [if_pos h2]
      norm_num
    · rw [if_neg h2]
      unfold expandLoop
      by_cases h3 : minWords ≤ countWords (env.expansions 2 (env.expansions 1 env.first))
      · rw [if_pos h3]
      · rw [if_neg h3]
        unfold expandLoop
        simp
  · intro h1 h2
    unfold wordCountGate
    rw [if_neg (by intro ⟨ha, _⟩; omega), if_pos h1]
    unfold expandLoop
    rw [if_pos h2]
  · intro h1 h2 h3
    unfold wordCountGate
    rw [if_neg (by intro ⟨ha, _⟩; omega), if_pos h1]
    unfold expandLoop
    rw [if_neg (by omega)]
    unfold expandLoop
    rw [if_neg (by norm_num; omega)]
    unfold expandLoop
    norm_num
    exact h3

/-- C3: for both bands (lesson body 2700–3300, podcast 1000–1200): a
first pass inside the band is returned with zero expansion calls; a
first pass below the minimum causes at most 2 expansion calls, the loop
returns as soon as the re-measured count reaches the minimum (one call
when the first expansion suffices), and when both expansion attempts
fall short the under-length text is accepted and returned. -/
theorem c3_expansion_loop_contract (env : GenEnv) :
    ((2700 ≤ countWords env.first → countWords env.first ≤ 3300 →
      generateLessonContent env = (env.first, countWords env.first, 0)) ∧
     (countWords env.first < 2700 → (generateLessonContent env).2.2 ≤ 2) ∧
     (countWords env.first < 2700 →
      2700 ≤ countWords (env.expansions 1 env.first) →
      generateLessonContent env =
        (env.expansions 1 env.first, countWords (env.expansions 1 env.first), 1)) ∧
     (countWords env.first < 2700 →
      countWords (env.expansions 1 env.first) < 2700 →
      countWords (env.expansions 2 (env.expansions 1 env.first)) < 2700 →
      generateLessonContent env =
        (env.expansions 2 (env.expansions 1 env.first),
         countWords (env.expansions 2 (env.expansions 1 env.first)), 2) ∧
      (generateLessonContent env).2.1 < 2700)) ∧
    ((1000 ≤ countWords env.first → countWords env.first ≤ 1200 →
      generatePodcastSummary env = (env.first, countWords env.first, 0)) ∧
     (countWords env.first < 1000 → (generatePodcastSummary env).2.2 ≤ 2) ∧
     (countWords env.first < 1000 →
      1000 ≤ countWords (env.expansions 1 env.first) →
      generatePodcastSummary env =
        (env.expansions 1 env.first, countWords (env.expansions 1 env.first), 1)) ∧
     (countWords env.first < 1000 →
      countWords (env.expansions 1 env.first) < 1000 →
      countWords (env.expansions 2 (env.expansions 1 env.first)) < 1000 →
      generatePodcastSummary env =
        (env.expansions 2 (env.expansions 1 env.first),
         countWords (env.expansions 2 (env.expansions 1 env.first)), 2) ∧
      (generatePodcastSummary env).2.1 < 1000)) :=
  ⟨wordCountGate_cases 2700 3300 env, wordCountGate_cases 1000 1200 env⟩

/-- C3 witness: a one-word first pass with two-word expansion results
exhausts the budget of 2 calls and the two-word under-length text is
accepted, for both bands. -/
theorem c3_expansion_loop_contract_witness :
    generateLessonContent ⟨"intro", fun _ _ => "more text"⟩ = ("more text", 2, 2) ∧
    generatePodcastSummary ⟨"intro", fun _ _ => "more text"⟩ = ("more text", 2, 2) := by
  constructor
  · exact ((c3_expansion_loop_contract ⟨"intro", fun _ _ => "more text"⟩).1.2.2.2
      (by decide) (by decide) (by decide)).1
  · exact ((c3_expansion_loop_contract ⟨"intro", fun _ _ => "more text"⟩).2.2.2.2
      (by decide) (by decide) (by decide)).1

/-! ## Single-lesson generation (content-generator.ts
`generateSingleLesson`) -/

/-- The constant `MAX_LESSON_RETRIES = 3`. -/
def MAX_LESSON_RETRIES : Nat := 3

/-- JS `String(n).padStart(2, '0')`. -/
def pad2 (n : Nat) : String :=
  let s := toString n
  if s.length < 2 then "0" ++ s else s

/-- The body file name `lesson-NN.md` (zero-padded lesson number). -/
def lessonFileName (n : Nat) : String := "lesson-" ++ pad2 n ++ ".md"

/-- The podcast file name `lesson-NN-podcast.md` (zero-padded lesson number). -/
def podcastFileName (n : Nat) : String := "lesson-" ++ pad2 n ++ "-podcast.md"

/-- Outcome of the completion-service work of one `generateSingleLesson`
attempt: both passes succeed (the generated texts abstracted by the word
counts the gate returns — only the counts are persisted), the body
generation throws, or the podcast generation throws after the body was
written.  The messages are the already-categorised
`categorizeError(error).message`. -/
inductive AttemptOutcome
  | ok (contentWC podcastWC : Nat)
  | contentFail (message : String)
  | podcastFail (contentWC : Nat) (message : String)
deriving DecidableEq, Repr

/-- content-generator.ts `generateSingleLesson`: mark the lesson
`generating` and clear its error; on success record the body file path
and word count, then — in one statement — the podcast file path, podcast
word count and status `completed`; any exception marks the lesson
`failed`, records the message and bumps `retry_count` by one
(`(lesson.retry_count || 0) + 1`).  Returns the final row and the
boolean the source returns. -/
def generateSingleLesson (topic : Topic) (lesson : Lesson)
    (out : AttemptOutcome) : Lesson × Bool :=
  let l1 : Lesson := { lesson with status := .generating, last_error := none }
  match out with
  | .ok contentWC podcastWC =>
    let l2 : Lesson := { l1 with
      file_path := some (topic.slug ++ "/" ++ lessonFileName lesson.lesson_number)
      word_count := some contentWC }
    ({ l2 with
      podcast_file_path := some (topic.slug ++ "/" ++ podcastFileName lesson.lesson_number)
      podcast_word_count := some podcastWC
      status := .completed
      last_error := none }, true)
  | .contentFail msg =>
    ({ l1 with
      status := .failed
      last_error := some msg
      retry_count := lesson.retry_count + 1 }, false)
  | .podcastFail contentWC msg =>
    let l2 : Lesson := { l1 with
      file_path := some (topic.slug ++ "/" ++ lessonFileName lesson.lesson_number)
      word_count := some contentWC }
    ({ l2 with
      status := .failed
      last_error := some msg
      retry_count := lesson.retry_count + 1 }, false)

/-! ## Generate all / retry failed (content-generator.ts) -/

/-- One iteration of the `for (const lesson of lessons)` loop of
`generateAllContent`: lessons already `completed` are skipped, lessons
at the retry ceiling are skipped (and counted as failed), all others run
`generateSingleLesson`.  The environment gives the attempt outcome per
lesson number. -/
def genStep (env : Nat → AttemptOutcome) (topic : Topic) (l : Lesson) : Lesson :=
  if l.status = .completed then l
  else if MAX_LESSON_RETRIES ≤ l.retry_count then l
  else (generateSingleLesson topic l (env l.lesson_number)).1

/-- Whether the loop counts this lesson towards `failedCount`. -/
def genStepFailed (env : Nat → AttemptOutcome) (topic : Topic) (l : Lesson) : Bool :=
  if l.status = .completed then false
  else if MAX_LESSON_RETRIES ≤ l.retry_count then true
  else !(generateSingleLesson topic l (env l.lesson_number)).2

/-- The message `N lesson(s) failed to generate.
${completedCount}/${finalLessons.length} completed.` -/
def genAllErrorMsg (failedCount completedCount total : Nat) : String :=
  toString failedCount ++ " lesson(s) failed to generate. " ++
    (toString completedCount ++ "/" ++ toString total) ++ " completed."

/-- The message `N lesson(s) still failed.
${completedCount}/${finalLessons.length} completed.` -/
def retryErrorMsg (failedLessons completedCount total : Nat) : String :=
  toString failedLessons ++ " lesson(s) still failed. " ++
    (toString completedCount ++ "/" ++ toString total) ++ " completed."

/-- The final topic/lesson rows after a `generateAllContent` run. -/
structure GenerateAllResult where
  topic : Topic
  lessons : List Lesson
deriving DecidableEq, Repr

/-- content-generator.ts `generateAllContent`: throws (before any state
change) when the topic has no lessons; otherwise processes every lesson
in order with `genStep`, re-reads the rows, and marks the topic
`completed` when every lesson is `completed`, else `failed` with the
completed/total summary message.  (The `catch` branch of the source is
unreachable here: `generateSingleLesson` catches all its errors.) -/
def generateAllContent (env : Nat → AttemptOutcome) (topic : Topic)
    (lessons : List Lesson) : Except String GenerateAllResult :=
  if lessons.isEmpty then .error "No lessons found. Run topic breakdown first."
  else
    let finalLessons := lessons.map (genStep env topic)
    let failedCount := lessons.countP (genStepFailed env topic)
    let completedCount := finalLessons.countP (fun l => decide (l.status = .completed))
    if completedCount = finalLessons.length then
      .ok ⟨{ topic with status := .completed, last_error := none }, finalLessons⟩
    else
      .ok ⟨{ topic with
          status := .failed
          last_error := some (genAllErrorMsg failedCount completedCount finalLessons.length) },
        finalLessons⟩

/-- The SQL filter of `retryFailedLessons`: `status IN ('failed',
'pending') AND (retry_count < 3 OR retry_count IS NULL)`. -/
def retrySelect (lessons : List Lesson) : List Lesson :=
  lessons.filter (fun l =>
    (decide (l.status = .failed) || decide (l.status = .pending)) &&
      decide (l.retry_count < MAX_LESSON_RETRIES))

/-- Effect of a `retryFailedLessons` run on one lesson row: selected
lessons are re-run through `generateSingleLesson`, the rest untouched. -/
def retryStep (env : Nat → AttemptOutcome) (topic : Topic) (l : Lesson) : Lesson :=
  if (decide (l.status = .failed) || decide (l.status = .pending)) &&
      decide (l.retry_count < MAX_LESSON_RETRIES) then
    (generateSingleLesson topic l (env l.lesson_number)).1
  else l

/-- The `{ retried, succeeded, failed }` record `retryFailedLessons`
returns. -/
structure RetryOutcome where
  retried : Nat
  succeeded : Nat
  failed : Nat
deriving DecidableEq, Repr

/-- content-generator.ts `retryFailedLessons`: select the failed/pending
lessons below the ceiling; when none, return `{0,0,0}` untouched;
otherwise re-run each selected lesson (the transient `generating` topic
status is overwritten by the final status), re-read the rows and mark
the topic exactly as `generateAllContent` does, with the
still-failed/completed summary message. -/
def retryFailedLessons (env : Nat → AttemptOutcome) (topic : Topic)
    (lessons : List Lesson) : RetryOutcome × Topic × List Lesson :=
  let sel := retrySelect lessons
  if sel.isEmpty then (⟨0, 0, 0⟩, topic, lessons)
  else
    let finalLessons := lessons.map (retryStep env topic)
    let succeeded := sel.countP (fun l => (generateSingleLesson topic l (env l.lesson_number)).2)
    let failed := sel.countP (fun l => !(generateSingleLesson topic l (env l.lesson_number)).2)
    let completedCount := finalLessons.countP (fun l => decide (l.status = .completed))
    if completedCount = finalLessons.length then
      (⟨sel.length, succeeded, failed⟩,
       { topic with status := .completed, last_error := none }, finalLessons)
    else
      let failedLessons := finalLessons.countP (fun l => decide (l.status = .failed))
      (⟨sel.length, succeeded, failed⟩,
       { topic with
          status := .failed
          last_error := some (retryErrorMsg failedLessons completedCount finalLessons.length) },
       finalLessons)

/-! ## Operation sequences over the pipeline state -/

/-- The persisted state the pipeline operates on: the topic row and its
lesson rows. -/
structure PipelineState where
  topic : Topic
  lessons : List Lesson

/-- A generate or retry operation, with its completion-service
environment. -/
inductive PipelineOp
  | genAll (env : Nat → AttemptOutcome)
  | retryFailed (env : Nat → AttemptOutcome)

/-- Apply one operation; a thrown `generateAllContent` (no lessons)
leaves the state unchanged, as the source throws before any write. -/
def applyOp (st : PipelineState) : PipelineOp → PipelineState
  | .genAll env =>
    match generateAllContent env st.topic st.lessons with
    | .ok r => ⟨r.topic, r.lessons⟩
    | .error _ => st
  | .retryFailed env =>
    let r := retryFailedLessons env st.topic st.lessons
    ⟨r.2.1, r.2.2⟩

/-- Run a sequence of operations. -/
def runOps (st : PipelineState) : List PipelineOp → PipelineState
  | [] => st
  | op :: ops => runOps (applyOp st op) ops

theorem generateSingleLesson_status (topic : Topic) (l : Lesson)
    (out : AttemptOutcome) :
    (generateSingleLesson topic l out).1.status = .completed ∨
    (generateSingleLesson topic l out).1.status = .failed := by
  cases out <;> simp [generateSingleLesson]

theorem generateSingleLesson_retry_le (topic : Topic) (l : Lesson)
    (out : AttemptOutcome) :
    (generateSingleLesson topic l out).1.retry_count ≤ l.retry_count + 1 := by
  cases out <;> simp [generateSingleLesson]

theorem generateSingleLesson_completed_fields (topic : Topic) (l : Lesson)
    (out : AttemptOutcome)
    (h : (generateSingleLesson topic l out).1.status = .completed) :
    (generateSingleLesson topic l out).1.file_path.isSome = true ∧
    (generateSingleLesson topic l out).1.word_count.isSome = true ∧
    (generateSingleLesson topic l out).1.podcast_file_path.isSome = true ∧
    (generateSingleLesson topic l out).1.podcast_word_count.isSome = true ∧
    (generateSingleLesson topic l out).2 = true := by
  cases out <;> simp_all [generateSingleLesson]

theorem genStep_retry_le (env : Nat → AttemptOutcome) (topic : Topic)
    (l : Lesson) (h : l.retry_count ≤ MAX_LESSON_RETRIES) :
    (genStep env topic l).retry_count ≤ MAX_LESSON_RETRIES := by
  unfold genStep
  by_cases h1 : l.status = .completed
  · rw [if_pos h1]; exact h
  · rw [if_neg h1]
    by_cases h2 : MAX_LESSON_RETRIES ≤ l.retry_count
    · rw [if_pos h2]; exact h
    · rw [if_neg h2]
      have := generateSingleLesson_retry_le topic l (env l.lesson_number)
      unfold MAX_LESSON_RETRIES at *
      omega

theorem retryStep_retry_le (env : Nat → AttemptOutcome) (topic : Topic)
    (l : Lesson) (h : l.retry_count ≤ MAX_LESSON_RETRIES) :
    (retryStep env topic l).retry_count ≤ MAX_LESSON_RETRIES := by
  unfold retryStep
  by_cases hsel : ((decide (l.status = .failed) || decide (l.status = .pending)) &&
      decide (l.retry_count < MAX_LESSON_RETRIES)) = true
  · rw [if_pos hsel]
    simp only [Bool.and_eq_true, decide_eq_true_eq] at hsel
    have := generateSingleLesson_retry_le topic l (env l.lesson_number)
    unfold MAX_LESSON_RETRIES at *
    omega
  · rw [if_neg hsel]; exact h

/-- A lesson skipped for retry exhaustion is returned unchanged by the
`generateAllContent` loop. -/
theorem genStep_skip_exhausted (env : Nat → AttemptOutcome) (topic : Topic)
    (l : Lesson) (h : l.retry_count = MAX_LESSON_RETRIES) :
    genStep env topic l = l := by
  unfold genStep
  by_cases h1 : l.status = .completed
  · rw [if_pos h1]
  · rw [if_neg h1, if_pos (le_of_eq h.symm)]

/-- A completed lesson is returned unchanged by the
`generateAllContent` loop. -/
theorem genStep_skip_completed (env : Nat → AttemptOutcome) (topic : Topic)
    (l : Lesson) (h : l.status = .completed) :
    genStep env topic l = l := by
  unfold genStep
  rw [if_pos h]

/-- Every lesson `retryFailedLessons` selects is non-completed and below
the retry ceiling. -/
theorem retrySelect_mem (lessons : List Lesson) (l : Lesson)
    (h : l ∈ retrySelect lessons) :
    (l.status = .failed ∨ l.status = .pending) ∧
      l.retry_count < MAX_LESSON_RETRIES ∧ l.status ≠ .completed := by
  unfold retrySelect at h
  have := List.of_mem_filter h
  simp only [Bool.and_eq_true, Bool.or_eq_true, decide_eq_true_eq] at this
  refine ⟨this.1, this.2, ?_⟩
  rcases this.1 with h1 | h1 <;> rw [h1] <;> intro hc <;> exact LessonStatus.noConfusion hc

/-- The lesson rows after one operation: unchanged (empty-lessons throw,
or empty retry selection), or the pointwise image of the corresponding
loop step. -/
theorem applyOp_lessons (st : PipelineState) (op : PipelineOp) :
    (applyOp st op).lessons = st.lessons ∨
    (∃ env, (applyOp st op).lessons = st.lessons.map (genStep env st.topic)) ∨
    (∃ env, (applyOp st op).lessons = st.lessons.map (retryStep env st.topic)) := by
  cases op with
  | genAll env =>
    by_cases he : st.lessons.isEmpty
    · left
      simp [applyOp, generateAllContent, he]
    · right; left
      refine ⟨env, ?_⟩
      simp [applyOp, generateAllContent, he]
      by_cases hC : ∀ a ∈ st.lessons,
        (genStep env st.topic a).status = LessonStatus.completed
      · rw [if_pos hC]
      · rw [if_neg hC]
  | retryFailed env =>
    by_cases hsel : (retrySelect st.lessons).isEmpty
    · left
      simp [applyOp, retryFailedLessons, hsel]
    · right; right
      refine ⟨env, ?_⟩
      simp [applyOp, retryFailedLessons, hsel]
      by_cases hC : ∀ a ∈ st.lessons,
        (retryStep env st.topic a).status = LessonStatus.completed
      · rw [if_pos hC]
      · rw [if_neg hC]

/-- A per-lesson property preserved by both loop steps is preserved by
every sequence of generate/retry operations. -/
theorem runOps_lesson_invariant (P : Lesson → Prop)
    (hgen : ∀ env topic l, P l → P (genStep env topic l))
    (hretry : ∀ env topic l, P l → P (retryStep env topic l)) :
    ∀ (ops : List PipelineOp) (st : PipelineState),
      (∀ l ∈ st.lessons, P l) → ∀ l ∈ (runOps st ops).lessons, P l := by
  intro ops
  induction ops with
  | nil => intro st h; exact h
  | cons op ops ih =>
    intro st h
    show ∀ l ∈ (runOps (applyOp st op) ops).lessons, P l
    apply ih
    rcases applyOp_lessons st op with hl | ⟨env, hl⟩ | ⟨env, hl⟩
    · rw [hl]; exact h
    · rw [hl]
      intro l hm
      obtain ⟨l0, hm0, rfl⟩ := List.mem_map.mp hm
      exact hgen env st.topic l0 (h l0 hm0)
    · rw [hl]
      intro l hm
      obtain ⟨l0, hm0, rfl⟩ := List.mem_map.mp hm
      exact hretry env st.topic l0 (h l0 hm0)

/-- C2: starting from any state where every lesson's retry counter is at
most 3, any sequence of generate/retry operations keeps every counter at
most 3 (the counter is bumped only when a lesson attempted with
`retry_count < 3` fails, so it reaches at most 3); a lesson whose
counter equals 3 is skipped unchanged by the "generate all" loop
(counted as failed when not completed) and is excluded from the "retry
failed" selection. -/
theorem c2_retry_ceiling :
    (∀ (ops : List PipelineOp) (st : PipelineState),
      (∀ l ∈ st.lessons, l.retry_count ≤ MAX_LESSON_RETRIES) →
      ∀ l ∈ (runOps st ops).lessons, l.retry_count ≤ MAX_LESSON_RETRIES) ∧
    (∀ (env : Nat → AttemptOutcome) (topic : Topic) (l : Lesson),
      l.retry_count = MAX_LESSON_RETRIES → genStep env topic l = l) ∧
    (∀ (env : Nat → AttemptOutcome) (topic : Topic) (l : Lesson),
      l.retry_count = MAX_LESSON_RETRIES → l.status ≠ .completed →
      genStepFailed env topic l = true) ∧
    (∀ (lessons : List Lesson) (l : Lesson),
      l.retry_count = MAX_LESSON_RETRIES → l ∉ retrySelect lessons) := by
  refine ⟨?_, ?_, ?_, ?_⟩
  · intro ops st h
    exact runOps_lesson_invariant (fun l => l.retry_count ≤ MAX_LESSON_RETRIES)
      (fun env topic l hl => genStep_retry_le env topic l hl)
      (fun env topic l hl => retryStep_retry_le env topic l hl) ops st h
  · intro env topic l h
    exact genStep_skip_exhausted env topic l h
  · intro env topic l h hs
    unfold genStepFailed
    rw [if_neg hs, if_pos (le_of_eq h.symm)]
  · intro lessons l h hmem
    have hm := retrySelect_mem lessons l hmem
    omega

/-- C2 witness: one failed lesson with counter 2 fails again under
"generate all" and ends with counter 3 (within the ceiling); a failed
lesson with counter 3 is not selected by "retry failed". -/
theorem c2_retry_ceiling_witness :
    (∀ l ∈ (runOps
        ⟨⟨1, "Topic", "topic", none, 1, .failed, none⟩,
         [⟨1, 1, "L1", none, .failed, 2, none, none, none, none, some "boom"⟩]⟩
        [PipelineOp.genAll (fun _ => .contentFail "API failure")]).lessons,
      l.retry_count ≤ MAX_LESSON_RETRIES) ∧
    (⟨2, 2, "L2", none, .failed, 3, none, none, none, none, some "boom"⟩ : Lesson) ∉
      retrySelect [⟨2, 2, "L2", none, .failed, 3, none, none, none, none, some "boom"⟩] := by
  constructor
  · exact c2_retry_ceiling.1
      [PipelineOp.genAll (fun _ => .contentFail "API failure")]
      ⟨⟨1, "Topic", "topic", none, 1, .failed, none⟩,
       [⟨1, 1, "L1", none, .failed, 2, none, none, none, none, some "boom"⟩]⟩
      (by decide)
  · exact c2_retry_ceiling.2.2.2
      [⟨2, 2, "L2", none, .failed, 3, none, none, none, none, some "boom"⟩]
      ⟨2, 2, "L2", none, .failed, 3, none, none, none, none, some "boom"⟩ rfl

theorem generateSingleLesson_fail_status (topic : Topic) (l : Lesson)
    (out : AttemptOutcome) (h : ∀ c p, out ≠ .ok c p) :
    (generateSingleLesson topic l out).1.status = .failed := by
  cases out with
  | ok c p => exact absurd rfl (h c p)
  | contentFail m => simp [generateSingleLesson]
  | podcastFail c m => simp [generateSingleLesson]

/-- The artifact invariant a completed lesson row must satisfy. -/
def completedHasArtifacts (l : Lesson) : Prop :=
  l.status = .completed →
    l.file_path.isSome = true ∧ l.word_count.isSome = true ∧
    l.podcast_file_path.isSome = true ∧ l.podcast_word_count.isSome = true

theorem genStep_artifacts (env : Nat → AttemptOutcome) (topic : Topic)
    (l : Lesson) (h : completedHasArtifacts l) :
    completedHasArtifacts (genStep env topic l) := by
  unfold genStep
  by_cases h1 : l.status = .completed
  · rw [if_pos h1]; exact h
  · rw [if_neg h1]
    by_cases h2 : MAX_LESSON_RETRIES ≤ l.retry_count
    · rw [if_pos h2]; exact h
    · rw [if_neg h2]
      intro hc
      have hf := generateSingleLesson_completed_fields topic l (env l.lesson_number) hc
      exact ⟨hf.1, hf.2.1, hf.2.2.1, hf.2.2.2.1⟩

theorem retryStep_artifacts (env : Nat → AttemptOutcome) (topic : Topic)
    (l : Lesson) (h : completedHasArtifacts l) :
    completedHasArtifacts (retryStep env topic l) := by
  unfold retryStep
  by_cases hsel : ((decide (l.status = .failed) || decide (l.status = .pending)) &&
      decide (l.retry_count < MAX_LESSON_RETRIES)) = true
  · rw [if_pos hsel]
    intro hc
    have hf := generateSingleLesson_completed_fields topic l (env l.lesson_number) hc
    exact ⟨hf.1, hf.2.1, hf.2.2.1, hf.2.2.2.1⟩
  · rw [if_neg hsel]; exact h

/-- C7: `generateSingleLesson` sets status `completed` only on the full
success path, and the single statement that sets `completed` also
records the podcast file path and podcast word count (the body file path
and word count having been recorded earlier in the same attempt); hence
a completed result carries all four artifact fields, and any sequence of
generate/retry operations preserves "every completed lesson has all four
artifact fields recorded". -/
theorem c7_completed_lesson_invariant :
    (∀ (topic : Topic) (l : Lesson) (contentWC podcastWC : Nat),
      generateSingleLesson topic l (.ok contentWC podcastWC) =
        ({ l with
            status := .completed
            last_error := none
            file_path := some (topic.slug ++ "/" ++ lessonFileName l.lesson_number)
            word_count := some contentWC
            podcast_file_path := some (topic.slug ++ "/" ++ podcastFileName l.lesson_number)
            podcast_word_count := some podcastWC }, true)) ∧
    (∀ (topic : Topic) (l : Lesson) (out : AttemptOutcome),
      (generateSingleLesson topic l out).1.status = .completed →
      ∃ c p, out = .ok c p) ∧
    (∀ (topic : Topic) (l : Lesson) (out : AttemptOutcome),
      completedHasArtifacts (generateSingleLesson topic l out).1) ∧
    (∀ (ops : List PipelineOp) (st : PipelineState),
      (∀ l ∈ st.lessons, completedHasArtifacts l) →
      ∀ l ∈ (runOps st ops).lessons, completedHasArtifacts l) := by
  refine ⟨?_, ?_, ?_, ?_⟩
  · intro topic l contentWC podcastWC
    rfl
  · intro topic l out h
    cases out with
    | ok c p => exact ⟨c, p, rfl⟩
    | contentFail m => simp [generateSingleLesson] at h
    | podcastFail c m => simp [generateSingleLesson] at h
  · intro topic l out hc
    have hf := generateSingleLesson_completed_fields topic l out hc
    exact ⟨hf.1, hf.2.1, hf.2.2.1, hf.2.2.2.1⟩
  · intro ops st h
    exact runOps_lesson_invariant completedHasArtifacts
      genStep_artifacts retryStep_artifacts ops st h

/-- C7 witness: the artifact invariant holds on the rows left by a
"generate all" pass over one pending lesson that succeeds with word
counts 3000/1100. -/
theorem c7_completed_lesson_invariant_witness :
    (⟨1, 1, "L1", none, .completed, 0, some "topic/lesson-01.md", some 3000,
        some "topic/lesson-01-podcast.md", some 1100, none⟩ : Lesson).file_path.isSome = true ∧
    (⟨1, 1, "L1", none, .completed, 0, some "topic/lesson-01.md", some 3000,
        some "topic/lesson-01-podcast.md", some 1100, none⟩ : Lesson).word_count.isSome = true ∧
    (⟨1, 1, "L1", none, .completed, 0, some "topic/lesson-01.md", some 3000,
        some "topic/lesson-01-podcast.md", some 1100, none⟩ : Lesson).podcast_file_path.isSome = true ∧
    (⟨1, 1, "L1", none, .completed, 0, some "topic/lesson-01.md", some 3000,
        some "topic/lesson-01-podcast.md", some 1100, none⟩ : Lesson).podcast_word_count.isSome = true := by
  have h := c7_completed_lesson_invariant.2.2.2
    [PipelineOp.genAll (fun _ => .ok 3000 1100)]
    ⟨⟨1, "Topic", "topic", none, 1, .pending, none⟩,
     [⟨1, 1, "L1", none, .pending, 0, none, none, none, none, none⟩]⟩
    (by intro l hm; rw [List.mem_singleton] at hm; subst hm; intro h; simp at h)
    ⟨1, 1, "L1", none, .completed, 0, some "topic/lesson-01.md", some 3000,
      some "topic/lesson-01-podcast.md", some 1100, none⟩
    (by decide)
  exact h rfl

theorem generateAllContent_ok_lessons (env : Nat → AttemptOutcome)
    (topic : Topic) (lessons : List Lesson) (r : GenerateAllResult)
    (hok : generateAllContent env topic lessons = .ok r) :
    r.lessons = lessons.map (genStep env topic) := by
  unfold generateAllContent at hok
  by_cases he : lessons.isEmpty
  · rw [if_pos he] at hok
    exact absurd hok (by simp)
  · rw [if_neg he] at hok
    simp only [] at hok
    split at hok <;> (cases hok; rfl)

/-- C10 (counterexample): a lesson already in status `generating` whose
retry counter has reached the ceiling is skipped by the
`generateAllContent` loop (the retry check fires before any status
write) and is still `generating` after the run terminates normally, so
the claim "no lesson remains in 'generating' after any terminating
invocation" fails on this input state. -/
theorem c10_counterexample :
    generateAllContent (fun _ => .ok 3000 1100)
        ⟨1, "Topic", "topic", none, 1, .failed, none⟩
        [⟨1, 1, "L1", none, .generating, 3, none, none, none, none, none⟩] =
      .ok ⟨⟨1, "Topic", "topic", none, 1, .failed,
            some "1 lesson(s) failed to generate. 0/1 completed."⟩,
          [⟨1, 1, "L1", none, .generating, 3, none, none, none, none, none⟩]⟩ ∧
    (⟨1, 1, "L1", none, .generating, 3, none, none, none, none, none⟩ : Lesson).status =
      .generating := ⟨rfl, rfl⟩

/-- C10 (amended): after a normally terminating `generateAllContent`
run, no lesson remains in `generating`, provided every lesson that
started in `generating` had a retry counter below the ceiling (the only
states the pipeline's own operations produce — a lesson enters
`generating` only when selected with `retry_count < 3`).  Every
processed lesson ends `completed` or `failed`; a lesson skipped at the
retry ceiling keeps its prior status, which by the hypothesis is not
`generating`. -/
theorem c10_no_generating_left (env : Nat → AttemptOutcome) (topic : Topic)
    (lessons : List Lesson) (r : GenerateAllResult)
    (hgen : ∀ l ∈ lessons, l.status = .generating →
      l.retry_count < MAX_LESSON_RETRIES)
    (hok : generateAllContent env topic lessons = .ok r) :
    ∀ l ∈ r.lessons, l.status ≠ .generating := by
  intro l hm
  rw [generateAllContent_ok_lessons env topic lessons r hok] at hm
  obtain ⟨l0, hm0, rfl⟩ := List.mem_map.mp hm
  unfold genStep
  by_cases h1 : l0.status = .completed
  · rw [if_pos h1, h1]; decide
  · rw [if_neg h1]
    by_cases h2 : MAX_LESSON_RETRIES ≤ l0.retry_count
    · rw [if_pos h2]
      intro hc
      exact absurd (hgen l0 hm0 hc) (by omega)
    · rw [if_neg h2]
      rcases generateSingleLesson_status topic l0 (env l0.lesson_number) with h | h <;>
        rw [h] <;> decide

/-- C10 witness: the amended theorem at a one-lesson topic whose pending
lesson succeeds. -/
theorem c10_no_generating_left_witness :
    decide ((⟨1, 1, "L1", none, .completed, 0,
        some "topic/lesson-01.md", some 3000,
        some "topic/lesson-01-podcast.md", some 1100, none⟩ : Lesson).status =
      LessonStatus.generating) = false :=
  decide_eq_false
    (c10_no_generating_left (fun _ => .ok 3000 1100)
      ⟨1, "Topic", "topic", none, 1, .pending, none⟩
      [⟨1, 1, "L1", none, .pending, 0, none, none, none, none, none⟩]
      ⟨⟨1, "Topic", "topic", none, 1, .completed, none⟩,
        [⟨1, 1, "L1", none, .completed, 0,
          some "topic/lesson-01.md", some 3000,
          some "topic/lesson-01-podcast.md", some 1100, none⟩]⟩
      (by decide) rfl
      ⟨1, 1, "L1", none, .completed, 0, some "topic/lesson-01.md", some 3000,
        some "topic/lesson-01-podcast.md", some 1100, none⟩
      (by decide))

/-- C1: on a topic whose lessons include at least one already-completed
lesson and at least one lesson that will be attempted and fail, the
"generate all" pass returns normally: every already-completed lesson is
skipped with its row (status, file paths, word counts) unchanged; every
lesson is still visited (the final rows are the pointwise image of the
loop step, so the pass continues past each failure); the topic ends
`completed` exactly when every final lesson is `completed` — here
`failed`, with an error text containing the completed/total ratio — and
the subsequent "retry failed" selection contains only non-completed
lessons. -/
theorem c1_partial_failure_preservation
    (topic : Topic) (lessons : List Lesson) (env : Nat → AttemptOutcome)
    (hcomp : ∃ l ∈ lessons, l.status = .completed)
    (hfail : ∃ l ∈ lessons, l.status ≠ .completed ∧
      l.retry_count < MAX_LESSON_RETRIES ∧
      ∀ c p, env l.lesson_number ≠ .ok c p) :
    ∃ res, generateAllContent env topic lessons = .ok res ∧
      res.lessons = lessons.map (genStep env topic) ∧
      (∀ l ∈ lessons, l.status = .completed → genStep env topic l = l) ∧
      (res.topic.status = .completed ↔ ∀ l ∈ res.lessons, l.status = .completed) ∧
      res.topic.status = .failed ∧
      (∃ pre post, res.topic.last_error = some (pre ++
        (toString (res.lessons.countP (fun l => decide (l.status = .completed))) ++
          "/" ++ toString res.lessons.length) ++ post)) ∧
      (∀ l ∈ retrySelect res.lessons, l.status ≠ .completed) := by
  obtain ⟨lc, hlc, hlcs⟩ := hcomp
  obtain ⟨lf, hlf, hlfs, hlfr, hlfe⟩ := hfail
  have hne : ¬ lessons.isEmpty = true := by
    intro h
    rw [List.isEmpty_iff] at h
    subst h
    exact List.not_mem_nil lc hlc
  -- the failing lesson ends `failed` in the mapped rows
  have hstep : (genStep env topic lf).status = .failed := by
    unfold genStep
    rw [if_neg hlfs, if_neg (by omega)]
    exact generateSingleLesson_fail_status topic lf (env lf.lesson_number) hlfe
  have hmem : genStep env topic lf ∈ lessons.map (genStep env topic) :=
    List.mem_map_of_mem (genStep env topic) hlf
  have hnotall : ¬ ∀ l ∈ lessons.map (genStep env topic), l.status = .completed := by
    intro hall
    have := hall _ hmem
    rw [hstep] at this
    exact LessonStatus.noConfusion this
  have hcount : ¬ (lessons.map (genStep env topic)).countP
      (fun l => decide (l.status = .completed)) =
      (lessons.map (genStep env topic)).length := by
    intro h
    apply hnotall
    intro l hl
    have := (List.countP_eq_length).mp h l hl
    simpa using this
  refine ⟨⟨{ topic with
      status := .failed
      last_error := some (genAllErrorMsg
        (lessons.countP (genStepFailed env topic))
        ((lessons.map (genStep env topic)).countP
          (fun l => decide (l.status = .completed)))
        (lessons.map (genStep env topic)).length) },
    lessons.map (genStep env topic)⟩, ?_, rfl, ?_, ?_, rfl, ?_, ?_⟩
  · unfold generateAllContent
    rw [if_neg hne]
    simp only []
    rw [if_neg hcount]
  · intro l hl hls
    exact genStep_skip_completed env topic l hls
  · constructor
    · intro h
      exact LessonStatus.noConfusion h
    · intro h
      exact absurd (h _ hmem) (by rw [hstep]; decide)
  · exact ⟨toString (lessons.countP (genStepFailed env topic)) ++
      " lesson(s) failed to generate. ", " completed.", rfl⟩
  · intro l hl
    exact (retrySelect_mem _ l hl).2.2

/-- C1 witness: the specification's 5-lesson scenario — lessons 1–2
already completed, lesson 3 failing, lessons 4–5 succeeding. -/
theorem c1_partial_failure_preservation_witness :
    ∃ res, generateAllContent
        (fun n => if n = 3 then .contentFail "OpenAI error" else .ok 3000 1100)
        ⟨1, "Topic", "topic", none, 5, .failed, none⟩
        [⟨1, 1, "L1", none, .completed, 0, some "topic/lesson-01.md", some 2800,
            some "topic/lesson-01-podcast.md", some 1000, none⟩,
         ⟨2, 2, "L2", none, .completed, 0, some "topic/lesson-02.md", some 2900,
            some "topic/lesson-02-podcast.md", some 1100, none⟩,
         ⟨3, 3, "L3", none, .pending, 0, none, none, none, none, none⟩,
         ⟨4, 4, "L4", none, .pending, 0, none, none, none, none, none⟩,
         ⟨5, 5, "L5", none, .pending, 0, none, none, none, none, none⟩] = .ok res ∧
      res.topic.status = .failed ∧
      (∃ pre post, res.topic.last_error = some (pre ++
        (toString (res.lessons.countP (fun l => decide (l.status = .completed))) ++
          "/" ++ toString res.lessons.length) ++ post)) ∧
      (∀ l ∈ retrySelect res.lessons, l.status ≠ .completed) := by
  obtain ⟨res, h1, h2, h3, h4, h5, h6, h7⟩ :=
    c1_partial_failure_preservation
      ⟨1, "Topic", "topic", none, 5, .failed, none⟩
      [⟨1, 1, "L1", none, .completed, 0, some "topic/lesson-01.md", some 2800,
          some "topic/lesson-01-podcast.md", some 1000, none⟩,
       ⟨2, 2, "L2", none, .completed, 0, some "topic/lesson-02.md", some 2900,
          some "topic/lesson-02-podcast.md", some 1100, none⟩,
       ⟨3, 3, "L3", none, .pending, 0, none, none, none, none, none⟩,
       ⟨4, 4, "L4", none, .pending, 0, none, none, none, none, none⟩,
       ⟨5, 5, "L5", none, .pending, 0, none, none, none, none, none⟩]
      (fun n => if n = 3 then .contentFail "OpenAI error" else .ok 3000 1100)
      ⟨⟨1, 1, "L1", none, .completed, 0, some "topic/lesson-01.md", some 2800,
          some "topic/lesson-01-podcast.md", some 1000, none⟩, by decide, rfl⟩
      ⟨⟨3, 3, "L3", none, .pending, 0, none, none, none, none, none⟩, by decide,
        by decide, by decide, fun c p h => by simp at h⟩
  exact ⟨res, h1, h5, h6, h7⟩

/-! ## SSE broadcaster (sse-manager.ts `SSEManager`) -/

/-- An open connection: its topic id and the events successfully written
to its response stream (`res.write`), oldest first.  The event payload
type is a parameter. -/
structure SSEConnection (ε : Type) where
  topicId : Nat
  delivered : List ε
deriving DecidableEq, Repr

/-- The registry `Map<string, SSEConnection>`, as an association list in
insertion order (JS `Map` iteration order). -/
abbrev MgrState (ε : Type) : Type := List (String × SSEConnection ε)

/-- The registered connection ids. -/
def mgrKeys {ε : Type} (st : MgrState ε) : List String :=
  List.map Prod.fst st

/-- The lookup `this.connections.get(connectionId)`. -/
def findConn {ε : Type} (st : MgrState ε) (cid : String) :
    Option (SSEConnection ε) :=
  (List.find? (fun e => decide (e.1 = cid)) st).map (fun e => e.2)

/-- Method `removeConnection` (a `Map.delete`). -/
def removeConnection {ε : Type} (st : MgrState ε) (cid : String) : MgrState ε :=
  List.filter (fun e => !decide (e.1 = cid)) st

/-- A `Map.set` on an existing key: the entry keeps its position. -/
def updateConn {ε : Type} (st : MgrState ε) (cid : String)
    (c : SSEConnection ε) : MgrState ε :=
  List.map (fun e => if e.1 = cid then (cid, c) else e) st

/-- sse-manager.ts `sendToConnection`: an unknown id reports failure with
no change; a successful `res.write` appends the event to the
connection's stream and returns true; a throwing write removes only that
connection and returns false.  Which connections' writes throw is the
environment `broken`. -/
def sendToConnection {ε : Type} (broken : String → Bool) (st : MgrState ε)
    (cid : String) (ev : ε) : MgrState ε × Bool :=
  match findConn st cid with
  | none => (st, false)
  | some c =>
    if broken cid then (removeConnection st cid, false)
    else (updateConn st cid ⟨c.topicId, c.delivered ++ [ev]⟩, true)

/-- The `for (const [connectionId, connection] of this.connections)`
loop of `sendToTopic`.  A deletion only ever removes the entry being
visited, so iterating over the entry list taken at call time matches the
JS live-`Map` iteration. -/
def sendToTopicAux {ε : Type} (broken : String → Bool) (tid : Nat) (ev : ε) :
    MgrState ε → List (String × SSEConnection ε) → MgrState ε
  | st, [] => st
  | st, e :: rest =>
    let st2 := if e.2.topicId = tid then (sendToConnection broken st e.1 ev).1 else st
    sendToTopicAux broken tid ev st2 rest

/-- sse-manager.ts `sendToTopic`: deliver the event to every connection
registered under the topic id. -/
def sendToTopic {ε : Type} (broken : String → Bool) (st : MgrState ε)
    (tid : Nat) (ev : ε) : MgrState ε :=
  sendToTopicAux broken tid ev st st

/-- The pointwise effect of one `sendToTopic` call on a registry entry:
non-matching topics untouched, a matching broken connection dropped, a
matching healthy connection gets the event appended. -/
def deliverTransform {ε : Type} (broken : String → Bool) (tid : Nat) (ev : ε)
    (e : String × SSEConnection ε) : Option (String × SSEConnection ε) :=
  if e.2.topicId = tid then
    if broken e.1 then none
    else some (e.1, ⟨e.2.topicId, e.2.delivered ++ [ev]⟩)
  else some e

theorem findConn_middle {ε : Type} (A rest : MgrState ε)
    (e : String × SSEConnection ε) (hA : e.1 ∉ mgrKeys A) :
    findConn (A ++ e :: rest) e.1 = some e.2 := by
  induction A with
  | nil => simp [findConn]
  | cons a A ih =>
    have ha : ¬ a.1 = e.1 := by
      intro hc
      exact hA (by rw [← hc]; exact List.mem_map_of_mem Prod.fst (List.mem_cons_self a A))
    have hA2 : e.1 ∉ mgrKeys A := fun hm => hA (List.mem_cons_of_mem _ hm)
    show findConn (a :: (A ++ e :: rest)) e.1 = some e.2
    unfold findConn at *
    rw [List.find?_cons_of_neg _ (by simpa using ha)]
    exact ih hA2

theorem removeConnection_middle {ε : Type} (A rest : MgrState ε)
    (e : String × SSEConnection ε) (hA : e.1 ∉ mgrKeys A)
    (hrest : e.1 ∉ mgrKeys rest) :
    removeConnection (A ++ e :: rest) e.1 = A ++ rest := by
  unfold removeConnection
  rw [List.filter_append]
  have h1 : List.filter (fun a => !decide (a.1 = e.1)) A = A := by
    rw [List.filter_eq_self]
    intro a ha
    simp only [Bool.not_eq_true', decide_eq_false_iff_not]
    intro hc
    exact hA (by rw [← hc]; exact List.mem_map_of_mem Prod.fst ha)
  have h2 : List.filter (fun a => !decide (a.1 = e.1)) (e :: rest) = rest := by
    rw [List.filter_cons_of_neg (by simp)]
    rw [List.filter_eq_self]
    intro a ha
    simp only [Bool.not_eq_true', decide_eq_false_iff_not]
    intro hc
    exact hrest (by rw [← hc]; exact List.mem_map_of_mem Prod.fst ha)
  rw [h1, h2]

theorem updateConn_middle {ε : Type} (A rest : MgrState ε)
    (e : String × SSEConnection ε) (c : SSEConnection ε)
    (hA : e.1 ∉ mgrKeys A) (hrest : e.1 ∉ mgrKeys rest) :
    updateConn (A ++ e :: rest) e.1 c = A ++ (e.1, c) :: rest := by
  unfold updateConn
  rw [List.map_append]
  have h1 : List.map (fun a => if a.1 = e.1 then (e.1, c) else a) A = A := by
    induction A with
    | nil => rfl
    | cons a A ih =>
      have ha : ¬ a.1 = e.1 := by
        intro hc
        exact hA (by rw [← hc]; exact List.mem_map_of_mem Prod.fst (List.mem_cons_self a A))
      rw [List.map_cons, if_neg ha,
        ih (fun hm => hA (List.mem_cons_of_mem _ hm))]
  have h2 : List.map (fun a => if a.1 = e.1 then (e.1, c) else a) (e :: rest) =
      (e.1, c) :: rest := by
    rw [List.map_cons, if_pos rfl]
    congr 1
    induction rest with
    | nil => rfl
    | cons a rest ih =>
      have ha : ¬ a.1 = e.1 := by
        intro hc
        exact hrest (by rw [← hc]; exact List.mem_map_of_mem Prod.fst (List.mem_cons_self a rest))
      rw [List.map_cons, if_neg ha,
        ih (fun hm => hrest (List.mem_cons_of_mem _ hm))]
  rw [h1, h2]

/-- The iteration of `sendToTopic` over the remaining snapshot entries,
with the already-visited prefix `A` (whose keys are disjoint from the
snapshot's) carried along: the result transforms each snapshot entry
pointwise. -/
theorem sendToTopicAux_spec {ε : Type} (broken : String → Bool) (tid : Nat)
    (ev : ε) :
    ∀ (snapshot A : MgrState ε), (mgrKeys (A ++ snapshot)).Nodup →
      sendToTopicAux broken tid ev (A ++ snapshot) snapshot =
        A ++ snapshot.filterMap (deliverTransform broken tid ev) := by
  intro snapshot
  induction snapshot with
  | nil => intro A _; simp [sendToTopicAux]
  | cons e rest ih =>
    intro A h
    have hkeys : mgrKeys (A ++ e :: rest) =
        mgrKeys A ++ e.1 :: mgrKeys rest := by
      simp [mgrKeys]
    rw [hkeys] at h
    have hA : e.1 ∉ mgrKeys A := by
      intro hm
      exact (List.disjoint_of_nodup_append h) hm (List.mem_cons_self _ _)
    have hrest : e.1 ∉ mgrKeys rest := by
      have h2 := (List.nodup_append.mp h).2.1
      exact (List.nodup_cons.mp h2).1
    show sendToTopicAux broken tid ev
      (if e.2.topicId = tid then (sendToConnection broken (A ++ e :: rest) e.1 ev).1
       else A ++ e :: rest) rest = _
    by_cases htid : e.2.topicId = tid
    · rw [if_pos htid]
      unfold sendToConnection
      rw [findConn_middle A rest e hA]
      dsimp only
      by_cases hbrk : broken e.1 = true
      · rw [if_pos hbrk]
        show sendToTopicAux broken tid ev (removeConnection (A ++ e :: rest) e.1) rest = _
        rw [removeConnection_middle A rest e hA hrest]
        rw [ih A (by
          have hsub : List.Sublist (mgrKeys A ++ mgrKeys rest)
              (mgrKeys A ++ e.1 :: mgrKeys rest) :=
            (List.sublist_cons_self e.1 (mgrKeys rest)).append_left (mgrKeys A)
          have := h.sublist hsub
          simpa [mgrKeys] using this)]
        have htr : deliverTransform broken tid ev e = none := by
          unfold deliverTransform
          rw [if_pos htid, if_pos hbrk]
        rw [List.filterMap_cons, htr]
      · rw [if_neg hbrk]
        show sendToTopicAux broken tid ev
          (updateConn (A ++ e :: rest) e.1 ⟨e.2.topicId, e.2.delivered ++ [ev]⟩) rest = _
        rw [updateConn_middle A rest e ⟨e.2.topicId, e.2.delivered ++ [ev]⟩ hA hrest]
        have hre : A ++ (e.1, ⟨e.2.topicId, e.2.delivered ++ [ev]⟩) :: rest =
            (A ++ [(e.1, (⟨e.2.topicId, e.2.delivered ++ [ev]⟩ : SSEConnection ε))]) ++ rest := by
          simp
        rw [hre, ih (A ++ [(e.1, (⟨e.2.topicId, e.2.delivered ++ [ev]⟩ : SSEConnection ε))]) (by
          have : mgrKeys ((A ++ [(e.1, (⟨e.2.topicId, e.2.delivered ++ [ev]⟩ : SSEConnection ε))]) ++ rest) =
              mgrKeys A ++ e.1 :: mgrKeys rest := by simp [mgrKeys]
          rw [this]
          exact h)]
        have htr : deliverTransform broken tid ev e =
            some (e.1, ⟨e.2.topicId, e.2.delivered ++ [ev]⟩) := by
          unfold deliverTransform
          rw [if_pos htid, if_neg hbrk]
        rw [List.filterMap_cons, htr]
        simp
    · rw [if_neg htid]
      have hre : A ++ e :: rest = (A ++ [e]) ++ rest := by simp
      rw [hre, ih (A ++ [e]) (by
        have : mgrKeys ((A ++ [e]) ++ rest) = mgrKeys A ++ e.1 :: mgrKeys rest := by
          simp [mgrKeys]
        rw [this]
        exact h)]
      have htr : deliverTransform broken tid ev e = some e := by
        unfold deliverTransform
        rw [if_neg htid]
      rw [List.filterMap_cons, htr]
      simp

/-- Method `sendToTopic` on a registry with distinct connection ids is the
pointwise transform of the registry. -/
theorem sendToTopic_spec {ε : Type} (broken : String → Bool)
    (st : MgrState ε) (tid : Nat) (ev : ε) (h : (mgrKeys st).Nodup) :
    sendToTopic broken st tid ev =
      st.filterMap (deliverTransform broken tid ev) := by
  have := sendToTopicAux_spec broken tid ev st [] (by simpa using h)
  simpa [sendToTopic] using this

theorem mgrKeys_unique {ε : Type} (st : MgrState ε)
    (h : (mgrKeys st).Nodup) (cid : String) (c1 c2 : SSEConnection ε)
    (h1 : (cid, c1) ∈ st) (h2 : (cid, c2) ∈ st) : c1 = c2 := by
  induction st with
  | nil => exact absurd h1 (List.not_mem_nil _)
  | cons a st ih =>
    have h' : (a.1 :: mgrKeys st).Nodup := h
    have hkey : ∀ c, (cid, c) ∈ st → a.1 ≠ cid := by
      intro c hm hc
      exact (List.nodup_cons.mp h').1
        (by rw [hc]; exact List.mem_map_of_mem Prod.fst hm)
    rcases List.mem_cons.mp h1 with hh1 | hh1 <;>
      rcases List.mem_cons.mp h2 with hh2 | hh2
    · rw [← hh1] at hh2
      exact congrArg Prod.snd hh2.symm
    · exact absurd (congrArg Prod.fst hh1.symm) (hkey c2 hh2)
    · exact absurd (congrArg Prod.fst hh2.symm) (hkey c1 hh1)
    · exact ih (List.nodup_cons.mp h').2 hh1 hh2

theorem deliverTransform_key {ε : Type} (broken : String → Bool) (tid : Nat)
    (ev : ε) (e e2 : String × SSEConnection ε)
    (h : deliverTransform broken tid ev e = some e2) : e2.1 = e.1 := by
  unfold deliverTransform at h
  by_cases htid : e.2.topicId = tid
  · rw [if_pos htid] at h
    by_cases hbrk : broken e.1 = true
    · rw [if_pos hbrk] at h
      exact absurd h (by simp)
    · rw [if_neg hbrk] at h
      cases h
      rfl
  · rw [if_neg htid] at h
    cases h
    rfl

/-- C6: one `sendToTopic` call on a registry with distinct connection
ids delivers the event exactly to the connections registered under the
published topic id: every healthy matching connection stays registered
with the event appended to its stream; every connection under a
different topic id keeps its exact record (no delivery); a matching
connection whose write throws is deregistered — and only it: no other
entry is affected, and the call never invents registrations. -/
theorem c6_broadcaster_isolation {ε : Type} (broken : String → Bool)
    (st : MgrState ε) (tid : Nat) (ev : ε) (h : (mgrKeys st).Nodup) :
    (∀ (cid : String) (c : SSEConnection ε), (cid, c) ∈ st →
      c.topicId = tid → broken cid = false →
      (cid, (⟨c.topicId, c.delivered ++ [ev]⟩ : SSEConnection ε)) ∈
        sendToTopic broken st tid ev) ∧
    (∀ (cid : String) (c : SSEConnection ε), (cid, c) ∈ st →
      c.topicId ≠ tid → (cid, c) ∈ sendToTopic broken st tid ev) ∧
    (∀ (cid : String) (c : SSEConnection ε), (cid, c) ∈ st →
      c.topicId = tid → broken cid = true →
      cid ∉ mgrKeys (sendToTopic broken st tid ev)) ∧
    (∀ e2 ∈ sendToTopic broken st tid ev, ∃ c, (e2.1, c) ∈ st) := by
  rw [sendToTopic_spec broken st tid ev h]
  refine ⟨?_, ?_, ?_, ?_⟩
  · intro cid c hm htid hbrk
    refine List.mem_filterMap.mpr ⟨(cid, c), hm, ?_⟩
    unfold deliverTransform
    rw [if_pos htid, if_neg (by rw [hbrk]; exact Bool.false_ne_true)]
  · intro cid c hm htid
    refine List.mem_filterMap.mpr ⟨(cid, c), hm, ?_⟩
    unfold deliverTransform
    rw [if_neg htid]
  · intro cid c hm htid hbrk hkey
    obtain ⟨e2, hmk, rfl⟩ := List.mem_map.mp hkey
    obtain ⟨e0, hm0, htr⟩ := List.mem_filterMap.mp hmk
    have hk := deliverTransform_key broken tid ev e0 e2 htr
    have he0 : e0 = (e2.1, e0.2) := by
      rw [hk]
    rw [he0] at hm0
    have hceq := mgrKeys_unique st h e2.1 c e0.2 hm hm0
    rw [he0, ← hceq] at htr
    unfold deliverTransform at htr
    rw [if_pos htid, if_pos hbrk] at htr
    exact Option.noConfusion htr
  · intro e2 hm
    obtain ⟨e0, hm0, htr⟩ := List.mem_filterMap.mp hm
    have hk := deliverTransform_key broken tid ev e0 e2 htr
    exact ⟨e0.2, by rw [hk]; exact hm0⟩

/-- C6 witness: two connections under job 1 (one with a broken channel)
and one under job 2; publishing to job 1 delivers to the healthy job-1
connection, leaves the job-2 connection untouched, and deregisters only
the broken one. -/
theorem c6_broadcaster_isolation_witness :
    ("c1", (⟨1, ["lesson_start"]⟩ : SSEConnection String)) ∈
      sendToTopic (fun cid => decide (cid = "c2"))
        [("c1", ⟨1, []⟩), ("c2", ⟨1, []⟩), ("c3", ⟨2, []⟩)] 1 "lesson_start" ∧
    ("c3", (⟨2, []⟩ : SSEConnection String)) ∈
      sendToTopic (fun cid => decide (cid = "c2"))
        [("c1", ⟨1, []⟩), ("c2", ⟨1, []⟩), ("c3", ⟨2, []⟩)] 1 "lesson_start" ∧
    "c2" ∉ mgrKeys (sendToTopic (fun cid => decide (cid = "c2"))
        [("c1", ⟨1, []⟩), ("c2", ⟨1, []⟩), ("c3", ⟨2, []⟩)] 1 "lesson_start") := by
  have h := c6_broadcaster_isolation (fun cid => decide (cid = "c2"))
    [("c1", ⟨1, []⟩), ("c2", ⟨1, []⟩), ("c3", ⟨2, []⟩)] 1 "lesson_start" (by decide)
  exact ⟨h.1 "c1" ⟨1, []⟩ (by decide) rfl (by decide),
    h.2.1 "c3" ⟨2, []⟩ (by decide) (by decide),
    h.2.2.1 "c2" ⟨1, []⟩ (by decide) rfl (by decide)⟩

/-! ## Status query and the stream endpoint (content-generator.ts
`getGenerationStatus`, routes/topics.ts `GET /:id/stream`) -/

/-- The coarse phase label of the composite status view. -/
inductive GenerationStep
  | breakdown
  | content
  | podcast
  | complete
deriving DecidableEq, Repr

/-- The `progress` part of the composite status view. -/
structure GenerationProgress where
  total : Nat
  completed : Nat
  failed : Nat
  current : Option Nat
  step : GenerationStep
deriving DecidableEq, Repr

/-- The composite status view returned by `getGenerationStatus`. -/
structure GenerationStatus where
  topic : Topic
  lessons : List Lesson
  progress : GenerationProgress
deriving DecidableEq, Repr

/-- content-generator.ts `getGenerationStatus`: total/completed/failed
counts, the currently `generating` lesson, and the phase label inferred
from whether the active lesson already has a body artifact.
`currentLesson?.lesson_number || null` maps a lesson number 0 to null
(JS falsiness), kept faithfully. -/
def getGenerationStatus (topic : Topic) (lessons : List Lesson) :
    GenerationStatus :=
  let completedLessons := lessons.countP (fun l => decide (l.status = .completed))
  let failedLessons := lessons.countP (fun l => decide (l.status = .failed))
  let currentLesson := lessons.find? (fun l => decide (l.status = .generating))
  let step : GenerationStep :=
    if lessons.length > 0 then
      if completedLessons = lessons.length then .complete
      else
        match currentLesson with
        | some cl => if cl.file_path.isSome then .podcast else .content
        | none => .content
    else .breakdown
  let current : Option Nat :=
    match currentLesson with
    | some cl => if cl.lesson_number = 0 then none else some cl.lesson_number
    | none => none
  ⟨topic, lessons, ⟨lessons.length, completedLessons, failedLessons, current, step⟩⟩

/-- The `data` payload of the `connected` events of the stream endpoint:
`addConnection`'s initial event carries only the connection and topic
ids; the route's follow-up broadcast also carries `currentStatus`. -/
structure ConnectedPayload where
  connectionId : String
  topicId : Nat
  currentStatus : Option GenerationStatus
deriving DecidableEq, Repr

/-- An SSE message as the subscriber reads it: event type and payload. -/
structure StreamMessage where
  type : String
  data : ConnectedPayload
deriving DecidableEq, Repr

/-- sse-manager.ts `addConnection`: register the connection (fresh id,
appended in insertion order) and send it the initial `connected` event
`{ connectionId, topicId }` — with no status snapshot. -/
def addConnection (broken : String → Bool) (st : MgrState StreamMessage)
    (cid : String) (tid : Nat) : MgrState StreamMessage :=
  let st1 := st ++ [(cid, ⟨tid, []⟩)]
  (sendToConnection broken st1 cid ⟨"connected", ⟨cid, tid, none⟩⟩).1

/-- routes/topics.ts `GET /:id/stream`: `addConnection`, then read the
composite status and broadcast a second `connected` event carrying the
snapshot to every connection of the topic — the new subscriber
included. -/
def streamConnect (broken : String → Bool) (st : MgrState StreamMessage)
    (cid : String) (topic : Topic) (lessons : List Lesson) :
    MgrState StreamMessage :=
  let st1 := addConnection broken st cid topic.id
  sendToTopic broken st1 topic.id
    ⟨"connected", ⟨cid, topic.id, some (getGenerationStatus topic lessons)⟩⟩

/-- Concrete topic for the stream-connect scenario. -/
def streamTopic : Topic := ⟨9, "Topic", "topic", none, 1, .generating, none⟩

/-- Concrete lesson rows for the stream-connect scenario. -/
def streamLessons : List Lesson :=
  [⟨1, 1, "L1", none, .pending, 0, none, none, none, none, none⟩]

/-- C9 (counterexample): the first message delivered to a new stream
subscriber is `addConnection`'s `connected` event, which carries only
the connection and topic ids and no status snapshot — the snapshot
arrives only in the second `connected` message broadcast by the route,
so "the initial message carries the current full status snapshot" fails
as stated. -/
theorem c9_counterexample :
    ∃ c, findConn (streamConnect (fun _ => false) [] "c0"
        streamTopic streamLessons) "c0" = some c ∧
      c.delivered.head? = some ⟨"connected", ⟨"c0", 9, none⟩⟩ ∧
      (⟨"connected", ⟨"c0", 9, none⟩⟩ : StreamMessage).data.currentStatus = none := by
  refine ⟨⟨9, [⟨"connected", ⟨"c0", 9, none⟩⟩,
    ⟨"connected", ⟨"c0", 9, some (getGenerationStatus streamTopic streamLessons)⟩⟩]⟩,
    ?_, rfl, rfl⟩
  decide

/-- C9 (amended): a successful connect to the per-topic stream endpoint
delivers exactly two messages to the new subscriber: first the id-only
`connected` handshake, then a `connected` message carrying the current
full composite status snapshot (`getGenerationStatus`), so the
subscriber needs no separate status fetch — the snapshot is in the
second message of the connect sequence, not the first. -/
theorem c9_stream_connect_snapshot (broken : String → Bool)
    (st : MgrState StreamMessage) (cid : String) (topic : Topic)
    (lessons : List Lesson)
    (hnodup : (mgrKeys st).Nodup) (hfresh : cid ∉ mgrKeys st)
    (hok : broken cid = false) :
    (cid, (⟨topic.id,
      [⟨"connected", ⟨cid, topic.id, none⟩⟩,
       ⟨"connected", ⟨cid, topic.id, some (getGenerationStatus topic lessons)⟩⟩]⟩ :
      SSEConnection StreamMessage)) ∈
      streamConnect broken st cid topic lessons := by
  have hst1 : addConnection broken st cid topic.id =
      st ++ [(cid, (⟨topic.id, [⟨"connected", ⟨cid, topic.id, none⟩⟩]⟩ :
        SSEConnection StreamMessage))] := by
    unfold addConnection sendToConnection
    dsimp only
    have hf : findConn (st ++ [(cid, (⟨topic.id, []⟩ : SSEConnection StreamMessage))])
        cid = some ⟨topic.id, []⟩ :=
      findConn_middle st [] (cid, ⟨topic.id, []⟩) hfresh
    rw [hf]
    dsimp only
    rw [if_neg (by rw [hok]; exact Bool.false_ne_true)]
    exact updateConn_middle st [] (cid, ⟨topic.id, []⟩) _ hfresh (by simp [mgrKeys])
  unfold streamConnect
  rw [hst1]
  have hnodup1 : (mgrKeys (st ++
      [(cid, (⟨topic.id, [⟨"connected", ⟨cid, topic.id, none⟩⟩]⟩ :
        SSEConnection StreamMessage))])).Nodup := by
    have : mgrKeys (st ++
        [(cid, (⟨topic.id, [⟨"connected", ⟨cid, topic.id, none⟩⟩]⟩ :
          SSEConnection StreamMessage))]) = mgrKeys st ++ [cid] := by
      simp [mgrKeys]
    rw [this]
    rw [List.nodup_append]
    exact ⟨hnodup, List.nodup_singleton cid, by
      intro a ha hb
      rw [List.mem_singleton] at hb
      subst hb
      exact hfresh ha⟩
  rw [sendToTopic_spec broken _ topic.id _ hnodup1]
  refine List.mem_filterMap.mpr
    ⟨(cid, ⟨topic.id, [⟨"connected", ⟨cid, topic.id, none⟩⟩]⟩),
     List.mem_append_right st (List.mem_singleton.mpr rfl), ?_⟩
  unfold deliverTransform
  rw [if_pos rfl, if_neg (by rw [hok]; exact Bool.false_ne_true)]
  rfl

/-- C9 witness: the amended theorem at the concrete one-lesson topic and
an empty registry. -/
theorem c9_stream_connect_snapshot_witness :
    ("c0", (⟨9,
      [⟨"connected", ⟨"c0", 9, none⟩⟩,
       ⟨"connected", ⟨"c0", 9, some (getGenerationStatus streamTopic streamLessons)⟩⟩]⟩ :
      SSEConnection StreamMessage)) ∈
      streamConnect (fun _ => false) [] "c0" streamTopic streamLessons :=
  c9_stream_connect_snapshot (fun _ => false) [] "c0" streamTopic streamLessons
    List.nodup_nil (List.not_mem_nil "c0") rfl
